import Mathlib

/-
Verification of the PFM risk-decision pipeline.

The definitions below are a shallow embedding of the Python sources
`backend/app/risk_engine.py`, `backend/app/threat_intel.py`,
`backend/app/anomaly_engine.py` and the login-scoring orchestration in
`backend/app/main.py`.  Python dictionaries are embedded as association
lists, Python floats as rationals (every float value is a rational), and
the transcendental float operations (`math.exp`, `0.5 ** x`) as the
corresponding real functions.  Fallible code is embedded in `Except`.
-/

namespace PFM

/- Association-list embedding of Python string-keyed dicts. -/

/-- Value lookup with default, embedding `d.get(k, default)`. -/
def dictGetQ (d : List (String × ℚ)) (k : String) : ℚ :=
  (d.lookup k).getD 0

/-- Embedding of `d[k] = v` on a Python dict: replace the value if the key is
present (insertion order kept), otherwise append the new key at the end. -/
def dictInsert (d : List (String × ℚ)) (k : String) (v : ℚ) : List (String × ℚ) :=
  if d.any (fun p => p.1 = k) then
    d.map (fun p => if p.1 = k then (p.1, v) else p)
  else
    d ++ [(k, v)]

/-- Embedding of `d.update(u)` on Python dicts. -/
def dictUpdate (d u : List (String × ℚ)) : List (String × ℚ) :=
  u.foldl (fun acc p => dictInsert acc p.1 p.2) d

/- risk_engine.RiskConfig -/

/-- Embedding of `risk_engine.RiskConfig`: weight dict, linear-model scale and
intercept, and the two decision thresholds. -/
structure RiskConfig where
  weights : List (String × ℚ)
  scale : ℚ
  intercept : ℚ
  step_up_threshold : ℤ
  hard_deny_threshold : ℤ
deriving DecidableEq, Repr

/-- The default weight dict of `RiskConfig` (risk_engine.py lines 10-23). -/
def defaultWeights : List (String × ℚ) :=
  [("bias", -3/2), ("new_device", 11/5), ("untrusted_device", 8/5),
   ("ip_changed", 3/5), ("new_city", 1), ("rare_city", 1/2),
   ("odd_hour", 2/5), ("uncommon_hour", 1/4), ("impossible_travel", 12/5),
   ("consecutive_fails", 13/20), ("no_prior_success_cap", 0),
   ("device_age_decay", 0)]

/-- Embedding of the module-level `CONFIG = RiskConfig()` value. -/
def CONFIG : RiskConfig :=
  ⟨defaultWeights, 1, 0, 60, 90⟩

/- risk_engine.update_config (claim C8).

A raw update request: each field is `none` when the key is absent from the
request, and `some raw` when present, where the inner `Option` is `none`
exactly when the Python conversion `float(v)` / `int(v)` would raise. -/

/-- A raw (unvalidated) config-update request, embedding the `new_cfg` dict
passed to `risk_engine.update_config`.  An inner `none` stands for a value on
which the numeric conversion raises. -/
structure RawCfg where
  weights : Option (List (String × Option ℚ)) := none
  scale : Option (Option ℚ) := none
  intercept : Option (Option ℚ) := none
  step_up_threshold : Option (Option ℤ) := none
  hard_deny_threshold : Option (Option ℤ) := none
deriving DecidableEq, Repr

/-- Embedding of the dict comprehension
`{k: float(v) for k, v in new_cfg["weights"].items()}`: it converts every
value before any assignment happens, and raises (returns `none`) if any single
value is unconvertible. -/
def convWeights (ws : List (String × Option ℚ)) : Option (List (String × ℚ)) :=
  ws.mapM (fun p => p.2.map (fun v => (p.1, v)))

/-- Step 1 of `update_config`: the weights update (lines 182-183). -/
def apply_weights (cfg : RiskConfig) (new : RawCfg) : Option String × RiskConfig :=
  match new.weights with
  | none => (none, cfg)
  | some ws =>
    match convWeights ws with
    | none => (some "ConfigInvalid", cfg)
    | some wl => (none, { cfg with weights := dictUpdate cfg.weights wl })

/-- Step 2 of `update_config`: the scale update (lines 184-185). -/
def apply_scale (cfg : RiskConfig) (new : RawCfg) : Option String × RiskConfig :=
  match new.scale with
  | none => (none, cfg)
  | some none => (some "ConfigInvalid", cfg)
  | some (some v) => (none, { cfg with scale := v })

/-- Step 3 of `update_config`: the intercept update (lines 186-187). -/
def apply_intercept (cfg : RiskConfig) (new : RawCfg) : Option String × RiskConfig :=
  match new.intercept with
  | none => (none, cfg)
  | some none => (some "ConfigInvalid", cfg)
  | some (some v) => (none, { cfg with intercept := v })

/-- Step 4 of `update_config`: the step-up-threshold update (lines 188-189). -/
def apply_stepup (cfg : RiskConfig) (new : RawCfg) : Option String × RiskConfig :=
  match new.step_up_threshold with
  | none => (none, cfg)
  | some none => (some "ConfigInvalid", cfg)
  | some (some v) => (none, { cfg with step_up_threshold := v })

/-- Step 5 of `update_config`: the hard-deny-threshold update (lines 190-191). -/
def apply_harddeny (cfg : RiskConfig) (new : RawCfg) : Option String × RiskConfig :=
  match new.hard_deny_threshold with
  | none => (none, cfg)
  | some none => (some "ConfigInvalid", cfg)
  | some (some v) => (none, { cfg with hard_deny_threshold := v })

/-- Sequencing of the mutation steps of `update_config`: an exception stops
the remaining steps but keeps the mutations already applied (the Python
function mutates the module-global `CONFIG` in place, field by field). -/
def chainStep (st : Option String × RiskConfig)
    (f : RiskConfig → Option String × RiskConfig) : Option String × RiskConfig :=
  match st with
  | (some e, c) => (some e, c)
  | (none, c) => f c

/-- Embedding of `risk_engine.update_config` (lines 181-192).  The result is
the pair (raised error if any, state of the configuration after the call). -/
def update_config (cfg : RiskConfig) (new : RawCfg) : Option String × RiskConfig :=
  chainStep (chainStep (chainStep (chainStep
    (apply_weights cfg new)
    (fun c => apply_scale c new))
    (fun c => apply_intercept c new))
    (fun c => apply_stepup c new))
    (fun c => apply_harddeny c new)

/-- A raw request every provided value of which is numerically convertible:
exactly the requests that can reach `update_config` through the
pydantic-validated `/risk/config` endpoint (schemas.RiskConfigIn). -/
def validRaw (new : RawCfg) : Prop :=
  (∀ ws, new.weights = some ws → (convWeights ws).isSome = true) ∧
  (∀ r, new.scale = some r → r.isSome = true) ∧
  (∀ r, new.intercept = some r → r.isSome = true) ∧
  (∀ r, new.step_up_threshold = some r → r.isSome = true) ∧
  (∀ r, new.hard_deny_threshold = some r → r.isSome = true)

/- Decision policy of main.login (claim C1). -/

/-- A persisted login attempt; only the `success` flag is read by the
decision policy and the feature extractor. -/
structure LoginEventRow where
  success : Bool
deriving DecidableEq, Repr

/-- The three outcomes of a finalized login attempt (main.py lines 369-416):
a raised 403 (`hard_deny`), a token with `step_up_required = true`, or a
plain allow. -/
inductive Decision where
  | hard_deny
  | step_up
  | allow
deriving DecidableEq, Repr

/-- Embedding of `had_success = any(r.success for r in recent)` (line 369),
where `recent` is the stored history excluding the candidate attempt. -/
def had_success (recent : List LoginEventRow) : Bool :=
  recent.any (fun r => r.success)

/-- Embedding of the decision tail of `main.login` (lines 370-416): hard-deny
on `total_score >= RISK_HARD_DENY and had_success`, otherwise step-up exactly
when `total_score >= RISK_STEP_UP_THRESHOLD`, otherwise allow. -/
def login_decision (recent : List LoginEventRow) (total_score stepT hardT : ℤ) :
    Decision :=
  if hardT ≤ total_score ∧ had_success recent = true then Decision.hard_deny
  else if stepT ≤ total_score then Decision.step_up
  else Decision.allow

/- threat_intel.py and the TI fusion in main.login (claim C3). -/

/-- Embedding of `threat_intel.TI_DEFAULT_SCORE_BUMPS` (lines 15-22). -/
def TI_DEFAULT_SCORE_BUMPS : List (String × ℤ) :=
  [("ti_bad_ip", 30), ("ti_tor_exit", 25), ("ti_bad_asn", 15),
   ("ti_disposable_email", 15), ("ti_breached_cred", 0)]

/-- Bump value for a TI label. -/
def tiBump (k : String) : ℤ :=
  (TI_DEFAULT_SCORE_BUMPS.lookup k).getD 0

/-- Embedding of `threat_intel._asn_for_ip`: a placeholder that always
returns `None`. -/
def asn_for_ip (_ip : String) : Option String :=
  none

/-- The record returned by `threat_intel.lookup_ip`. -/
structure TIIpOut where
  ti_bad_ip : Bool
  ti_tor_exit : Bool
  ti_bad_asn : Bool
  ti_asn : Option String
  ti_score_bump_suggest : ℤ
deriving DecidableEq, Repr

/-- Embedding of `threat_intel.lookup_ip` (lines 141-176).  `enabled` is
`TI_ENABLE`, `valid` is whether `ipaddress.ip_address(ip)` succeeds, and
`inBad`/`inTor` are the membership of the IP in the loaded feeds; `asnBad` is
membership in the loaded bad-ASN set. -/
def lookup_ip (enabled valid inBad inTor : Bool) (ip : String)
    (asnBad : String → Bool) : TIIpOut :=
  let base : TIIpOut := ⟨false, false, false, none, 0⟩
  if !enabled then base
  else if !valid then base
  else
    let o1 := if inBad then
      { base with ti_bad_ip := true,
                  ti_score_bump_suggest := base.ti_score_bump_suggest + tiBump "ti_bad_ip" }
      else base
    let o2 := if inTor then
      { o1 with ti_tor_exit := true,
                ti_score_bump_suggest := o1.ti_score_bump_suggest + tiBump "ti_tor_exit" }
      else o1
    match asn_for_ip ip with
    | none => o2
    | some a =>
      if asnBad a then
        { o2 with ti_asn := some a, ti_bad_asn := true,
                  ti_score_bump_suggest := o2.ti_score_bump_suggest + tiBump "ti_bad_asn" }
      else { o2 with ti_asn := some a }

/-- Embedding of the `extra` accumulator of `main.login` (lines 351-357): the
IP bump suggestion plus the disposable-email and breached-credential bumps. -/
def login_ti_extra (tiIp : TIIpOut) (disposable breached : Bool) : ℤ :=
  tiIp.ti_score_bump_suggest
    + (if disposable then tiBump "ti_disposable_email" else 0)
    + (if breached then tiBump "ti_breached_cred" else 0)

/-- Embedding of `total_score = min(100, int(base_score) + int(extra))`
(main.py line 367). -/
def login_total_score (base_score extra : ℤ) : ℤ :=
  min 100 (base_score + extra)

/- Statistical profile scorer: main._learn_tx category statistics (claim C10). -/

/-- Per-category transaction statistics, embedding the per-category dict
`{"n": .., "median": .., "mad": ..}` kept in `intel.tx_category_stats`. -/
structure CatStats where
  n : ℕ
  median : ℚ
  mad : ℚ
deriving DecidableEq, Repr

/-- The zeroed profile `{"n": 0, "median": 0.0, "mad": 0.0}` used when a
category has never been seen (main.py line 987). -/
def zeroStats : CatStats :=
  ⟨0, 0, 0⟩

/-- The EWMA smoothing constant `alpha = 0.1` (main.py line 989). -/
def alphaEW : ℚ :=
  1/10

/-- Embedding of the category-statistics update of `main._learn_tx`
(lines 988-996): first sighting initializes, later sightings apply the EWMA
update, with the MAD computed against the already-updated median. -/
def learn_tx_cat (s : CatStats) (amount : ℚ) : CatStats :=
  if s.n = 0 then ⟨1, amount, 0⟩
  else
    let med := (1 - alphaEW) * s.median + alphaEW * amount
    let mad := (1 - alphaEW) * s.mad + alphaEW * |amount - med|
    ⟨s.n + 1, med, mad⟩

/-- Replay of a sequence of amounts of one category starting from the zeroed
profile. -/
def replayStats (amounts : List ℚ) : CatStats :=
  amounts.foldl learn_tx_cat zeroStats

/- anomaly_engine.py (claims C6 and C7). -/

/-- A transaction row as consumed by `featurize_rows`. -/
structure TxRow where
  amount : ℚ
  category : String
  merchant : String
deriving DecidableEq, Repr

/-- Embedding of `IFConfig` (anomaly_engine.py lines 57-62). -/
structure IFConfig where
  contamination : ℚ := 8/100
  n_estimators : ℕ := 200
  random_state : ℕ := 42
  min_train_rows : ℕ := 10
deriving DecidableEq, Repr

/-- Embedding of `AEConfig` (anomaly_engine.py lines 99-108). -/
structure AEConfig where
  min_train_rows : ℕ := 40
  epochs : ℕ := 40
  batch_size : ℕ := 64
  hidden_dim : ℕ := 16
  bottleneck_dim : ℕ := 4
  score_percentile : ℚ := 95
deriving DecidableEq, Repr

/-- Embedding of `DetectorConfig` (anomaly_engine.py lines 217-221). -/
structure DetectorConfig where
  method : String := "auto"
  iforest : IFConfig := {}
  autoenc : AEConfig := {}
deriving DecidableEq, Repr

/-- The numeric outputs of the fitted statistical models, which the facade
code treats as black boxes: the isolation-forest decision-function value and
the autoencoder reconstruction error / error percentiles for the row being
scored, plus whether the torch runtime is importable (`TORCH_AVAILABLE`). -/
structure MLOracle where
  ifRaw : ℚ
  aeErr : ℚ
  aeP95 : ℚ
  aeP99 : ℚ
  aeMedian : ℚ
  torchAvailable : Bool
deriving DecidableEq, Repr

/-- The details dict attached to an anomaly score.  Each field is `some`
exactly when the corresponding key is present in the Python dict. -/
structure ScoreDetails where
  reason : Option String := none
  fallback : Option String := none
  raw_score : Option ℚ := none
  recon_error : Option ℚ := none
  p95 : Option ℚ := none
  p99 : Option ℚ := none
  medianErr : Option ℚ := none
deriving DecidableEq, Repr

/-- Embedding of `IsolationForestDetector.train` (lines 71-84): returns the
trained-row count, which is 0 below the minimum-rows threshold. -/
def iforest_train (cfg : IFConfig) (rows : List TxRow) : ℕ :=
  if rows.length < cfg.min_train_rows then 0 else rows.length

/-- Whether the isolation-forest model is fitted after `train` on `rows`. -/
def iforest_trained (cfg : IFConfig) (rows : List TxRow) : Bool :=
  decide (cfg.min_train_rows ≤ rows.length)

/-- Embedding of `IsolationForestDetector.score_one` (lines 86-96): 0 with a
`model_not_trained` reason when unfitted, otherwise
`int(np.clip((0.5 - raw) * 100.0, 0.0, 100.0))`. -/
def iforest_score_one (trained : Bool) (raw : ℚ) : ℤ × ScoreDetails :=
  if trained then
    (⌊max 0 (min ((1/2 - raw) * 100) 100)⌋, { raw_score := some raw })
  else
    (0, { reason := some "model_not_trained" })

/-- The `1e-9` guard added to denominators in `AutoencoderDetector.score_one`. -/
def eps9 : ℚ :=
  1/1000000000

/-- Embedding of the error-to-score mapping of `AutoencoderDetector.score_one`
(lines 205-212): linear 0..50 up to the p95 anchor, then linear 50..100 up to
the p99 anchor, clamped. -/
def ae_map_score (err p95 p99 : ℚ) : ℤ :=
  if err ≤ p95 then ⌊max 0 (min (err / (p95 + eps9) * 50) 50)⌋
  else 50 + ⌊max 0 (min ((err - p95) / (p99 - p95 + eps9) * 50) 50)⌋

/-- The message of the `RuntimeError` raised by `_ensure_torch`. -/
def torchMissingMsg : String :=
  "PyTorch is not available. Install torch to use autoencoder mode."

/-- Embedding of `AutoencoderDetector.train` (lines 149-191): raises when
torch is missing, returns 0 below the minimum-rows threshold, otherwise the
row count. -/
def autoenc_train (cfg : AEConfig) (torch : Bool) (rows : List TxRow) :
    Except String ℕ :=
  if !torch then Except.error torchMissingMsg
  else if rows.length < cfg.min_train_rows then Except.ok 0
  else Except.ok rows.length

/-- Embedding of `AutoencoderDetector.score_one` (lines 193-213). -/
def autoenc_score_one (torch trained : Bool) (o : MLOracle) :
    Except String (ℤ × ScoreDetails) :=
  if !torch then Except.error torchMissingMsg
  else if !trained then Except.ok (0, { reason := some "model_not_trained" })
  else Except.ok (ae_map_score o.aeErr o.aeP95 o.aeP99,
    { recon_error := some o.aeErr, p95 := some o.aeP95, p99 := some o.aeP99,
      medianErr := some o.aeMedian })

/-- The tuple returned by `AnomalyDetector.train_and_score`:
(method used, score, details, trained-row count). -/
structure TSResult where
  used : String
  score : ℤ
  details : ScoreDetails
  n_train : ℕ
deriving DecidableEq, Repr

/-- Embedding of the local `_try_iforest` closure of `train_and_score`
(lines 245-248). -/
def try_iforest (cfg : DetectorConfig) (o : MLOracle) (hist : List TxRow) :
    TSResult :=
  let n := iforest_train cfg.iforest hist
  let sd := iforest_score_one (iforest_trained cfg.iforest hist) o.ifRaw
  ⟨"iforest", sd.1, sd.2, n⟩

/-- Embedding of the local `_try_autoenc` closure of `train_and_score`
(lines 250-253). -/
def try_autoenc (cfg : DetectorConfig) (o : MLOracle) (hist : List TxRow) :
    Except String TSResult :=
  match autoenc_train cfg.autoenc o.torchAvailable hist with
  | Except.error e => Except.error e
  | Except.ok n =>
    match autoenc_score_one o.torchAvailable
        (decide (cfg.autoenc.min_train_rows ≤ hist.length)) o with
    | Except.error e => Except.error e
    | Except.ok sd => Except.ok ⟨"autoenc", sd.1, sd.2, n⟩

/-- Embedding of `details = {"fallback": "iforest", "reason": str(e),
**details}` (lines 269 and 279): the dict-merge keeps the substitute
detector's own `reason` key when it has one. -/
def mergeFallback (e : String) (d : ScoreDetails) : ScoreDetails :=
  { d with fallback := some "iforest", reason := some (d.reason.getD e) }

/-- Embedding of `str.lower()` by char-wise lowering. -/
def strLower (s : String) : String :=
  String.mk (s.data.map Char.toLower)

/-- Embedding of `method = (force_method or self.cfg.method or "auto").lower()`
(line 242): Python `or` skips empty strings. -/
def methodOf (force : Option String) (cfgMethod : String) : String :=
  let m := match force with
    | some s => if s = "" then (if cfgMethod = "" then "auto" else cfgMethod) else s
    | none => if cfgMethod = "" then "auto" else cfgMethod
  strLower m

/-- Embedding of `AnomalyDetector.train_and_score` (lines 233-283).  The
`Except` layer records any exception that would escape to the caller. -/
def train_and_score (cfg : DetectorConfig) (o : MLOracle) (hist : List TxRow)
    (_newest : TxRow) (force : Option String) : Except String TSResult :=
  let method := methodOf force cfg.method
  if method = "iforest" then Except.ok (try_iforest cfg o hist)
  else if method = "autoenc" then
    match try_autoenc cfg o hist with
    | Except.ok r =>
      if r.n_train = 0 then Except.ok (try_iforest cfg o hist) else Except.ok r
    | Except.error e =>
      let r := try_iforest cfg o hist
      Except.ok { r with details := mergeFallback e r.details }
  else
    if o.torchAvailable = true ∧ cfg.autoenc.min_train_rows ≤ hist.length then
      match try_autoenc cfg o hist with
      | Except.ok r => Except.ok r
      | Except.error e =>
        let r := try_iforest cfg o hist
        Except.ok { r with details := mergeFallback e r.details }
    else Except.ok (try_iforest cfg o hist)

/- risk_engine.login_features (claim C5). -/

/-- The named feature vector produced by `risk_engine.login_features`
(the dict `f`, keys in insertion order). -/
structure LoginFeatures where
  new_device : ℚ
  untrusted_device : ℚ
  ip_changed : ℚ
  new_city : ℚ
  rare_city : ℚ
  odd_hour : ℚ
  uncommon_hour : ℚ
  impossible_travel : ℚ
  consecutive_fails : ℚ
deriving DecidableEq, Repr

/-- Python truthiness of an optional string: `None` and `""` are falsy. -/
def truthyStr : Option String → Bool
  | none => false
  | some s => !(s == "")

/-- Embedding of `device_hash or ""`. -/
def orEmpty : Option String → String
  | none => ""
  | some s => s

/-- Count of prior successful attempts, embedding
`sum(1 for r in recent_rows[:-1] if getattr(r, "success", False))`
(risk_engine.py line 71): the candidate row appended last is excluded. -/
def prior_successes (recent_rows : List LoginEventRow) : ℕ :=
  recent_rows.dropLast.countP (fun r => r.success)

/-- Embedding of `risk_engine.login_features` (lines 44-99).  `now_hour` is
`now.hour`; city visit counts and the hour histogram are the string-keyed
dicts of the behavioral profile.  Returns the feature vector together with
the `prior_successes` note. -/
def login_features (recent_rows : List LoginEventRow)
    (login_cities : List (String × ℕ)) (login_hours_hist : List (String × ℕ))
    (device_trust : List (String × Bool)) (ip_city : String)
    (is_private_ip : Bool) (device_hash : Option String) (known_device : Bool)
    (ip_changed : Bool) (consecutive_fails : ℤ) (now_hour : ℕ)
    (speed_kmh : Option ℚ) : LoginFeatures × ℕ :=
  let f_new_device : ℚ := if truthyStr device_hash && !known_device then 1 else 0
  let trusted : Bool := (device_trust.lookup (orEmpty device_hash)).getD false
  let f_untrusted : ℚ := if !trusted then 1 else 0
  let f_ip_changed : ℚ := if ip_changed then 1 else 0
  let dev_like : Bool := is_private_ip || (ip_city == "Unknown")
  let prior : ℕ := prior_successes recent_rows
  let seen_city : ℕ := (login_cities.lookup ip_city).getD 0
  let f_new_city : ℚ :=
    if !dev_like && decide (1 ≤ prior) then (if seen_city = 0 then 1 else 0) else 0
  let f_rare_city : ℚ :=
    if !dev_like && decide (1 ≤ prior) then
      (if seen_city ≤ 2 ∧ 0 < seen_city then 1 else 0)
    else 0
  let hour_count : ℕ := (login_hours_hist.lookup (toString now_hour)).getD 0
  let f_odd_hour : ℚ :=
    if decide (3 ≤ prior) then (if hour_count = 0 then 1 else 0) else 0
  let f_uncommon_hour : ℚ :=
    if decide (3 ≤ prior) then (if hour_count ≤ 2 ∧ 0 < hour_count then 1 else 0)
    else 0
  let f_travel : ℚ :=
    match speed_kmh with
    | some v => if 750 < v then 1 else 0
    | none => 0
  let f_fails : ℚ := ((max consecutive_fails 0 : ℤ) : ℚ)
  (⟨f_new_device, f_untrusted, f_ip_changed, f_new_city, f_rare_city,
    f_odd_hour, f_uncommon_hour, f_travel, f_fails⟩, prior)

/- Real-valued part: Python round, sigmoid, linear scorer, calibrator. -/

/-- Embedding of the Python 3 built-in `round` on a real value: nearest
integer, with exact halves rounded to the even neighbour (Mathlib `round`
rounds halves up, so halves are redirected through `2 * round (x / 2)`,
which lands on the even neighbour). -/
noncomputable def pyRound (x : ℝ) : ℤ :=
  if Int.fract x = 1/2 then 2 * round (x / 2) else round x

/-- Embedding of `risk_engine._sigmoid` (lines 31-37), with the branch-stable
split on the sign of the argument kept. -/
noncomputable def sigmoid (x : ℝ) : ℝ :=
  if 0 ≤ x then 1 / (1 + Real.exp (-x)) else Real.exp x / (1 + Real.exp x)

/-- Embedding of `risk_engine.linear_score` (lines 101-112), restricted to the
returned total (the contribution-trace strings are not modelled).  The
accumulator starts from `weights.get("bias", 0.0)` and adds
`weights.get(k, 0.0) * v` for every feature in dict order. -/
noncomputable def linear_score (features : List (String × ℚ)) (cfg : RiskConfig) : ℤ :=
  let s0 : ℚ := dictGetQ cfg.weights "bias"
  let s1 : ℚ := features.foldl (fun acc kv => acc + dictGetQ cfg.weights kv.1 * kv.2) s0
  let z : ℚ := cfg.scale * s1 + cfg.intercept
  max 0 (min (pyRound (sigmoid (z : ℝ) * 100)) 100)

/-- The device-age decay factor `0.5 ** (days / half_life)` with
`half_life = 30.0` (risk_engine.py lines 125-126). -/
noncomputable def decay_factor (days : ℤ) : ℝ :=
  (1/2 : ℝ) ^ ((days : ℝ) / 30)

/-- Embedding of `risk_engine.apply_post_rules` (lines 114-128).
`delta_days` is `none` when `known_device_first_seen` is `None`, and
`some d` with `d = (now - known_device_first_seen).days` otherwise; the
function clamps `d` below by 0 as the source does. -/
noncomputable def apply_post_rules (total : ℤ) (ps : ℕ)
    (delta_days : Option ℤ) : ℤ :=
  let t1 : ℤ := if ps = 0 then min total 55 else total
  let t2 : ℤ :=
    match delta_days with
    | none => t1
    | some d =>
      let days := max d 0
      if 0 < days then pyRound ((t1 : ℝ) * decay_factor days) else t1
  max 0 (min t2 100)

/-- Modelled from the spec: the cold-start cap correction, "if the account has
zero prior successful logins, clamp the score to at most 55". -/
def cold_start_cap (score : ℤ) (priorSuccessCount : ℕ) : ℤ :=
  if priorSuccessCount = 0 then min score 55 else score

/-- Modelled from the spec: the device-age decay correction, "if a device
first-seen date is known and daysSinceFirstSeen > 0, multiply the score by
0.5 ^ (daysSinceFirstSeen / 30); a device seen today gets no decay". -/
noncomputable def device_age_decay (score : ℤ) (daysSinceFirstSeen : Option ℤ) : ℤ :=
  match daysSinceFirstSeen with
  | none => score
  | some d =>
    if 0 < max d 0 then pyRound ((score : ℝ) * decay_factor (max d 0)) else score

/- Toolkit lemmas about pyRound. -/

/-- Monotonicity of Mathlib round. -/
theorem round_mono_le {x y : ℝ} (h : x ≤ y) : round x ≤ round y := by
  rw [round_eq, round_eq]
  exact Int.floor_mono (by linarith)

/-- At an exact half, pyRound lands on the floor or on the floor plus one. -/
theorem pyRound_tie_cases {x : ℝ} (h : Int.fract x = 1/2) :
    pyRound x = ⌊x⌋ ∨ pyRound x = ⌊x⌋ + 1 := by
  have hx : x = (⌊x⌋ : ℝ) + 1/2 := by
    conv_lhs => rw [← Int.floor_add_fract x]
    rw [h]
  have h1 : |x/2 - round (x/2)| ≤ 1/2 := abs_sub_round (x/2)
  have h2 : (x : ℝ) - 1 ≤ 2 * round (x/2) ∧ (2 * round (x/2) : ℝ) ≤ x + 1 := by
    rw [abs_le] at h1
    constructor <;> linarith [h1.1, h1.2]
  have h3 : (⌊x⌋ : ℝ) - 1/2 ≤ (2 * round (x/2) : ℤ) := by push_cast; push_cast at h2; linarith [h2.1]
  have h4 : ((2 * round (x/2) : ℤ) : ℝ) ≤ (⌊x⌋ : ℝ) + 3/2 := by push_cast; push_cast at h2; linarith [h2.2]
  have h5 : ⌊x⌋ ≤ 2 * round (x/2) := by
    by_contra hc
    push_neg at hc
    have : ((2 * round (x/2) : ℤ) : ℝ) ≤ (⌊x⌋ : ℝ) - 1 := by exact_mod_cast Int.le_sub_one_of_lt hc
    linarith
  have h6 : 2 * round (x/2) ≤ ⌊x⌋ + 1 := by
    by_contra hc
    push_neg at hc
    have h7 : ⌊x⌋ + 2 ≤ 2 * round (x/2) := by omega
    have : ((⌊x⌋ : ℝ)) + 2 ≤ ((2 * round (x/2) : ℤ) : ℝ) := by exact_mod_cast h7
    push_cast at this
    linarith
  rw [pyRound, if_pos h]
  omega

/-- pyRound is bounded below by the floor. -/
theorem floor_le_pyRound (x : ℝ) : ⌊x⌋ ≤ pyRound x := by
  by_cases h : Int.fract x = 1/2
  · rcases pyRound_tie_cases h with h1 | h1 <;> omega
  · rw [pyRound, if_neg h, round_eq]
    exact Int.floor_mono (by linarith)

/-- pyRound is bounded above by the ceiling. -/
theorem pyRound_le_ceil (x : ℝ) : pyRound x ≤ ⌈x⌉ := by
  by_cases h : Int.fract x = 1/2
  · have hx : x = (⌊x⌋ : ℝ) + 1/2 := by
      conv_lhs => rw [← Int.floor_add_fract x]
      rw [h]
    have hceil : ⌊x⌋ + 1 ≤ ⌈x⌉ := by
      have : ⌊x⌋ < ⌈x⌉ := Int.lt_ceil.mpr (by linarith [hx])
      omega
    rcases pyRound_tie_cases h with h1 | h1 <;> omega
  · rw [pyRound, if_neg h, round_eq]
    have hlt : x + 1/2 < ((⌈x⌉ + 1 : ℤ) : ℝ) := by
      push_cast
      linarith [Int.le_ceil x]
    have := Int.floor_lt.mpr hlt
    omega

/-- pyRound never exceeds the Mathlib (round-half-up) round. -/
theorem pyRound_le_round (x : ℝ) : pyRound x ≤ round x := by
  by_cases h : Int.fract x = 1/2
  · have hx : x = (⌊x⌋ : ℝ) + 1/2 := by
      conv_lhs => rw [← Int.floor_add_fract x]
      rw [h]
    have hsum : x + 1/2 = ((⌊x⌋ + 1 : ℤ) : ℝ) := by push_cast; linarith [hx]
    have hr : round x = ⌊x⌋ + 1 := by rw [round_eq, hsum, Int.floor_intCast]
    rcases pyRound_tie_cases h with h1 | h1 <;> omega
  · rw [pyRound, if_neg h]

/-- pyRound is monotone. -/
theorem pyRound_mono {x y : ℝ} (h : x ≤ y) : pyRound x ≤ pyRound y := by
  by_cases hy : Int.fract y = 1/2
  · rcases eq_or_lt_of_le h with rfl | hlt
    · exact le_refl _
    · have hyv : y = (⌊y⌋ : ℝ) + 1/2 := by
        conv_lhs => rw [← Int.floor_add_fract y]
        rw [hy]
      have h1 : pyRound x ≤ round x := pyRound_le_round x
      have h2 : round x ≤ ⌊y⌋ := by
        rw [round_eq]
        have hlt2 : x + 1/2 < ((⌊y⌋ + 1 : ℤ) : ℝ) := by
          push_cast
          rw [hyv] at hlt
          linarith
        have := Int.floor_lt.mpr hlt2
        omega
      have h3 : ⌊y⌋ ≤ pyRound y := floor_le_pyRound y
      omega
  · have h1 : pyRound x ≤ round x := pyRound_le_round x
    have h2 : round x ≤ round y := round_mono_le h
    have h3 : pyRound y = round y := by rw [pyRound, if_neg hy]
    omega

/-- pyRound of a value at most an integer is at most that integer. -/
theorem pyRound_le_of_le {x : ℝ} {n : ℤ} (h : x ≤ (n : ℝ)) : pyRound x ≤ n :=
  le_trans (pyRound_le_ceil x) (Int.ceil_le.mpr h)

/-- pyRound of a value in the open interval (1/2, 1) is 1. -/
theorem pyRound_eq_one {x : ℝ} (h1 : 1/2 < x) (h2 : x < 1) : pyRound x = 1 := by
  have hfr : Int.fract x = x := Int.fract_eq_self.mpr ⟨by linarith, h2⟩
  have hne : Int.fract x ≠ 1/2 := by rw [hfr]; linarith
  rw [pyRound, if_neg hne, round_eq]
  have : ⌊x + 1/2⌋ = 1 := by
    rw [Int.floor_eq_iff]
    constructor <;> push_cast <;> linarith
  omega

/- Toolkit lemmas about the decay factor. -/

/-- The decay factor is positive. -/
theorem decay_factor_pos (days : ℤ) : 0 < decay_factor days :=
  Real.rpow_pos_of_pos (by norm_num) _

/-- The decay factor is at most one for non-negative day counts. -/
theorem decay_factor_le_one {days : ℤ} (h : 0 ≤ days) : decay_factor days ≤ 1 :=
  Real.rpow_le_one (by norm_num) (by norm_num)
    (by positivity)

/-- The decay factor is strictly below one for positive day counts. -/
theorem decay_factor_lt_one {days : ℤ} (h : 0 < days) : decay_factor days < 1 := by
  have hd : (0 : ℝ) < (days : ℝ) / 30 := by
    have : (0 : ℝ) < (days : ℝ) := by exact_mod_cast h
    positivity
  exact Real.rpow_lt_one (by norm_num) (by norm_num) hd

/-- The decay factor is strictly decreasing in the day count. -/
theorem decay_factor_strict_anti {d1 d2 : ℤ} (h : d1 < d2) :
    decay_factor d2 < decay_factor d1 := by
  have hc : ((d1 : ℝ) / 30) < ((d2 : ℝ) / 30) := by
    have : (d1 : ℝ) < (d2 : ℝ) := by exact_mod_cast h
    linarith
  exact Real.rpow_lt_rpow_of_exponent_gt (by norm_num) (by norm_num) hc

/-- The decay factor is antitone in the day count. -/
theorem decay_factor_anti {d1 d2 : ℤ} (h : d1 ≤ d2) :
    decay_factor d2 ≤ decay_factor d1 := by
  rcases eq_or_lt_of_le h with rfl | hlt
  · exact le_refl _
  · exact le_of_lt (decay_factor_strict_anti hlt)

/-- Above half for day counts strictly between 0 and 30. -/
theorem half_lt_decay_factor {days : ℤ} (_h1 : 0 < days) (h2 : days < 30) :
    1/2 < decay_factor days := by
  have hc : ((days : ℝ) / 30) < 1 := by
    have : (days : ℝ) < 30 := by exact_mod_cast h2
    linarith
  have := Real.rpow_lt_rpow_of_exponent_gt (x := (1/2 : ℝ)) (by norm_num) (by norm_num) hc
  rw [Real.rpow_one] at this
  exact this

/- Claim C1: the decision policy of main.login. -/

/-- Claim C1: a finalized login attempt with fused score S is hard-denied iff
S is at least the hard-deny threshold and the history (excluding the
candidate) holds at least one successful login; otherwise step-up is
signalled iff S is at least the step-up threshold, and the attempt is allowed
otherwise.  An account with no prior successful login is never hard-denied. -/
theorem c1_decision_policy (recent : List LoginEventRow) (S stepT hardT : ℤ) :
    (login_decision recent S stepT hardT = Decision.hard_deny ↔
      (hardT ≤ S ∧ ∃ r ∈ recent, r.success = true)) ∧
    (¬(hardT ≤ S ∧ ∃ r ∈ recent, r.success = true) →
      (login_decision recent S stepT hardT = Decision.step_up ↔ stepT ≤ S)) ∧
    (¬(hardT ≤ S ∧ ∃ r ∈ recent, r.success = true) → ¬(stepT ≤ S) →
      login_decision recent S stepT hardT = Decision.allow) ∧
    ((∀ r ∈ recent, r.success = false) →
      login_decision recent S stepT hardT ≠ Decision.hard_deny) := by
  have hh : (had_success recent = true) ↔ (∃ r ∈ recent, r.success = true) := by
    simp [had_success, List.any_eq_true]
  have hz : (∀ r ∈ recent, r.success = false) → ¬∃ r ∈ recent, r.success = true := by
    intro hall hex
    obtain ⟨r, hr, hs⟩ := hex
    have := hall r hr
    rw [this] at hs
    exact Bool.false_ne_true hs
  unfold login_decision
  split_ifs with h1 h2
  · refine ⟨iff_of_true rfl ⟨h1.1, hh.mp h1.2⟩, ?_, ?_, ?_⟩
    · intro hc
      exact absurd ⟨h1.1, hh.mp h1.2⟩ hc
    · intro hc _
      exact absurd ⟨h1.1, hh.mp h1.2⟩ hc
    · intro hall
      exact absurd (hh.mp h1.2) (hz hall)
  · refine ⟨iff_of_false (by simp) ?_, ?_, ?_, by simp⟩
    · intro hc
      exact h1 ⟨hc.1, hh.mpr hc.2⟩
    · intro _
      exact iff_of_true rfl h2
    · intro _ hns
      exact absurd h2 hns
  · refine ⟨iff_of_false (by simp) ?_, ?_, fun _ _ => rfl, by simp⟩
    · intro hc
      exact h1 ⟨hc.1, hh.mpr hc.2⟩
    · intro _
      exact iff_of_false (by simp) h2

/-- Witness for C1 at a concrete input: score 95 on an account with no prior
successful login is not hard-denied (thresholds 60/90). -/
theorem c1_decision_policy_witness :
    login_decision [⟨false⟩] 95 60 90 ≠ Decision.hard_deny :=
  (c1_decision_policy [⟨false⟩] 95 60 90).2.2.2 (by simp)

/- Claim C3: threat-intelligence fusion. -/

/-- Claim C3: the fused score is min(100, calibrated + sum of applicable
bumps) with bad-IP worth 30 points; with only badIP set, a calibrated 50
becomes exactly 80, and any calibrated score at least 70 becomes 100. -/
theorem c3_ti_fusion (base : ℤ) (inBad inTor d b : Bool) (ip : String)
    (asnBad : String → Bool) :
    (login_total_score base
        (login_ti_extra (lookup_ip true true inBad inTor ip asnBad) d b)
      = min 100 (base + ((if inBad then 30 else 0) + (if inTor then 25 else 0)
          + (if d then 15 else 0) + (if b then 0 else 0)))) ∧
    (inBad = true → inTor = false → d = false → b = false →
      login_total_score 50
        (login_ti_extra (lookup_ip true true inBad inTor ip asnBad) d b) = 80) ∧
    (70 ≤ base → inBad = true →
      login_total_score base
        (login_ti_extra (lookup_ip true true inBad inTor ip asnBad) d b) = 100) := by
  have hb1 : tiBump "ti_bad_ip" = 30 := rfl
  have hb2 : tiBump "ti_tor_exit" = 25 := rfl
  have hb3 : tiBump "ti_disposable_email" = 15 := rfl
  have hb4 : tiBump "ti_breached_cred" = 0 := rfl
  refine ⟨?_, ?_, ?_⟩
  · cases inBad <;> cases inTor <;> cases d <;> cases b <;>
      simp [login_total_score, login_ti_extra, lookup_ip, asn_for_ip,
        hb1, hb2, hb3, hb4]
  · intro h1 h2 h3 h4
    subst h1; subst h2; subst h3; subst h4
    simp [login_total_score, login_ti_extra, lookup_ip, asn_for_ip, hb1]
  · intro hbase h1
    subst h1
    cases inTor <;> cases d <;> cases b <;>
      simp [login_total_score, login_ti_extra, lookup_ip, asn_for_ip,
        hb1, hb2, hb3, hb4] <;> omega

/-- Witness for C3 at a concrete input: badIP alone on a calibrated score of
50 gives 80, and on 70 gives 100. -/
theorem c3_ti_fusion_witness :
    login_total_score 50
      (login_ti_extra (lookup_ip true true true false "1.2.3.4" (fun _ => false))
        false false) = 80 ∧
    login_total_score 70
      (login_ti_extra (lookup_ip true true true false "1.2.3.4" (fun _ => false))
        false false) = 100 :=
  ⟨(c3_ti_fusion 50 true false false false "1.2.3.4" (fun _ => false)).2.1
      rfl rfl rfl rfl,
   (c3_ti_fusion 70 true false false false "1.2.3.4" (fun _ => false)).2.2
      (by decide) rfl⟩

/- Claim C10: EWMA category statistics. -/

/-- Counterexample for C10: the very first update of a category (n = 0) sets
the median to the raw amount instead of the EWMA form; from the zeroed
profile with amount 10 the code stores median 10 while the EWMA form yields
1. -/
theorem c10_ewma_cex :
    (learn_tx_cat zeroStats 10).median = 10 ∧
    (1 - alphaEW) * zeroStats.median + alphaEW * 10 = 1 ∧
    (10 : ℚ) ≠ 1 := by
  refine ⟨rfl, ?_, by norm_num⟩
  norm_num [alphaEW, zeroStats]

/-- Claim C10 (amended): every update of a category whose count is non-zero
follows the EWMA form with alpha = 0.1, the MAD being computed against the
already-updated median; the first update initializes the stats to
(1, amount, 0); and the update is a deterministic function, so replaying the
same amount sequence from the zeroed profile yields identical statistics. -/
theorem c10_ewma_amended (s : CatStats) (amt : ℚ) (l : List ℚ) :
    (s.n ≠ 0 →
      (learn_tx_cat s amt).median = (1 - alphaEW) * s.median + alphaEW * amt ∧
      (learn_tx_cat s amt).mad
        = (1 - alphaEW) * s.mad + alphaEW * |amt - (learn_tx_cat s amt).median| ∧
      (learn_tx_cat s amt).n = s.n + 1) ∧
    (learn_tx_cat zeroStats amt = ⟨1, amt, 0⟩) ∧
    (replayStats l = replayStats l) := by
  refine ⟨?_, by simp [learn_tx_cat, zeroStats], rfl⟩
  intro h
  simp [learn_tx_cat, h]

/-- Witness for C10 (amended) at a concrete input: updating (n = 1,
median = 2, mad = 0) with amount 12 follows the EWMA form. -/
theorem c10_ewma_amended_witness :
    (learn_tx_cat ⟨1, 2, 0⟩ 12).median = (1 - alphaEW) * 2 + alphaEW * 12 :=
  ((c10_ewma_amended ⟨1, 2, 0⟩ 12 []).1 (by decide)).1

/- Claim C8: config updates. -/

/-- Counterexample for C8: calling update_config with a valid weights entry
followed by an unconvertible scale raises ConfigInvalid, yet the weights
mutation is kept, so the prior configuration is not fully retained. -/
theorem c8_config_cex :
    (update_config CONFIG ⟨some [("bias", some 1)], some none, none, none, none⟩).1
        = some "ConfigInvalid" ∧
    (update_config CONFIG
        ⟨some [("bias", some 1)], some none, none, none, none⟩).2.weights.lookup "bias"
        = some 1 ∧
    CONFIG.weights.lookup "bias" = some (-3/2) ∧
    (update_config CONFIG ⟨some [("bias", some 1)], some none, none, none, none⟩).2
        ≠ CONFIG := by
  refine ⟨rfl, rfl, rfl, ?_⟩
  intro h
  have h1 : (update_config CONFIG
      ⟨some [("bias", some 1)], some none, none, none, none⟩).2.weights.lookup "bias"
      = some (-3/2 : ℚ) := by rw [h]; exact rfl
  have h2 : (update_config CONFIG
      ⟨some [("bias", some 1)], some none, none, none, none⟩).2.weights.lookup "bias"
      = some (1 : ℚ) := rfl
  rw [h2] at h1
  have h3 : (1 : ℚ) = -3/2 := Option.some.inj h1
  norm_num at h3

/-- The weights step only ever touches the weights field. -/
theorem apply_weights_preserves (cfg : RiskConfig) (new : RawCfg) :
    (apply_weights cfg new).2.scale = cfg.scale ∧
    (apply_weights cfg new).2.intercept = cfg.intercept ∧
    (apply_weights cfg new).2.step_up_threshold = cfg.step_up_threshold ∧
    (apply_weights cfg new).2.hard_deny_threshold = cfg.hard_deny_threshold := by
  rcases hw : new.weights with _ | ws
  · simp [apply_weights, hw]
  · rcases hc : convWeights ws with _ | wl <;> simp [apply_weights, hw, hc]

/-- The scale step never touches the hard-deny threshold. -/
theorem apply_scale_preserves_hard (cfg : RiskConfig) (new : RawCfg) :
    (apply_scale cfg new).2.hard_deny_threshold = cfg.hard_deny_threshold := by
  rcases hs : new.scale with _ | _ | v <;> simp [apply_scale, hs]

/-- The scale step only ever touches the scale field. -/
theorem apply_scale_preserves (cfg : RiskConfig) (new : RawCfg) :
    (apply_scale cfg new).2.intercept = cfg.intercept ∧
    (apply_scale cfg new).2.step_up_threshold = cfg.step_up_threshold ∧
    (apply_scale cfg new).2.hard_deny_threshold = cfg.hard_deny_threshold := by
  rcases hs : new.scale with _ | _ | v <;> simp [apply_scale, hs]

/-- The intercept step only ever touches the intercept field. -/
theorem apply_intercept_preserves (cfg : RiskConfig) (new : RawCfg) :
    (apply_intercept cfg new).2.step_up_threshold = cfg.step_up_threshold ∧
    (apply_intercept cfg new).2.hard_deny_threshold = cfg.hard_deny_threshold := by
  rcases hs : new.intercept with _ | _ | v <;> simp [apply_intercept, hs]

/-- A failing scale step raises and leaves the configuration as it was. -/
theorem apply_scale_fail (cfg : RiskConfig) (new : RawCfg)
    (h : new.scale = some none) :
    apply_scale cfg new = (some "ConfigInvalid", cfg) := by
  simp [apply_scale, h]

/-- A failing intercept step raises and leaves the configuration as it was. -/
theorem apply_intercept_fail (cfg : RiskConfig) (new : RawCfg)
    (h : new.intercept = some none) :
    apply_intercept cfg new = (some "ConfigInvalid", cfg) := by
  simp [apply_intercept, h]

/-- A failing step-up step raises and leaves the configuration as it was. -/
theorem apply_stepup_fail (cfg : RiskConfig) (new : RawCfg)
    (h : new.step_up_threshold = some none) :
    apply_stepup cfg new = (some "ConfigInvalid", cfg) := by
  simp [apply_stepup, h]

/-- The intercept step never touches the hard-deny threshold. -/
theorem apply_intercept_preserves_hard (cfg : RiskConfig) (new : RawCfg) :
    (apply_intercept cfg new).2.hard_deny_threshold = cfg.hard_deny_threshold := by
  rcases hs : new.intercept with _ | _ | v <;> simp [apply_intercept, hs]

/-- The step-up step never touches the hard-deny threshold. -/
theorem apply_stepup_preserves_hard (cfg : RiskConfig) (new : RawCfg) :
    (apply_stepup cfg new).2.hard_deny_threshold = cfg.hard_deny_threshold := by
  rcases hs : new.step_up_threshold with _ | _ | v <;> simp [apply_stepup, hs]

/-- A failing hard-deny step leaves the configuration exactly as it was. -/
theorem apply_harddeny_fail (cfg : RiskConfig) (new : RawCfg) (e : String)
    (h : (apply_harddeny cfg new).1 = some e) : (apply_harddeny cfg new).2 = cfg := by
  rcases hs : new.hard_deny_threshold with _ | _ | v <;>
    simp [apply_harddeny, hs] at h ⊢

/-- The weights step succeeds when a provided weights dict converts. -/
theorem apply_weights_ok (cfg : RiskConfig) (new : RawCfg)
    (h : ∀ ws, new.weights = some ws → (convWeights ws).isSome = true) :
    (apply_weights cfg new).1 = none := by
  rcases hw : new.weights with _ | ws
  · simp [apply_weights, hw]
  · have hsome := h ws hw
    rcases hc : convWeights ws with _ | wl
    · rw [hc] at hsome
      simp at hsome
    · simp [apply_weights, hw, hc]

/-- The scale step succeeds when a provided scale converts. -/
theorem apply_scale_ok (cfg : RiskConfig) (new : RawCfg)
    (h : ∀ r, new.scale = some r → r.isSome = true) :
    (apply_scale cfg new).1 = none := by
  rcases hs : new.scale with _ | _ | v
  · simp [apply_scale, hs]
  · have := h none hs
    simp at this
  · simp [apply_scale, hs]

/-- The intercept step succeeds when a provided intercept converts. -/
theorem apply_intercept_ok (cfg : RiskConfig) (new : RawCfg)
    (h : ∀ r, new.intercept = some r → r.isSome = true) :
    (apply_intercept cfg new).1 = none := by
  rcases hs : new.intercept with _ | _ | v
  · simp [apply_intercept, hs]
  · have := h none hs
    simp at this
  · simp [apply_intercept, hs]

/-- The step-up step succeeds when a provided threshold converts. -/
theorem apply_stepup_ok (cfg : RiskConfig) (new : RawCfg)
    (h : ∀ r, new.step_up_threshold = some r → r.isSome = true) :
    (apply_stepup cfg new).1 = none := by
  rcases hs : new.step_up_threshold with _ | _ | v
  · simp [apply_stepup, hs]
  · have := h none hs
    simp at this
  · simp [apply_stepup, hs]

/-- The hard-deny step succeeds when a provided threshold converts. -/
theorem apply_harddeny_ok (cfg : RiskConfig) (new : RawCfg)
    (h : ∀ r, new.hard_deny_threshold = some r → r.isSome = true) :
    (apply_harddeny cfg new).1 = none := by
  rcases hs : new.hard_deny_threshold with _ | _ | v
  · simp [apply_harddeny, hs]
  · have := h none hs
    simp at this
  · simp [apply_harddeny, hs]

/-- Claim C8 (amended): a malformed weights value is rejected before any
mutation, retaining the whole prior configuration; when the malformed field
is the first one processed the configuration is likewise fully retained; any
failing call leaves the hard-deny threshold (the last field processed)
unchanged; and a request whose provided values all convert (as is the case
for anything passing the pydantic-validated /risk/config endpoint) never
fails.  (Updates already applied to fields processed before the malformed
one persist: see the counterexample.) -/
theorem c8_config_amended (cfg : RiskConfig) (new : RawCfg) :
    (∀ ws, new.weights = some ws → convWeights ws = none →
      update_config cfg new = (some "ConfigInvalid", cfg)) ∧
    (new.weights = none → new.scale = some none →
      update_config cfg new = (some "ConfigInvalid", cfg)) ∧
    ((∀ ws, new.weights = some ws → (convWeights ws).isSome = true) →
      new.scale = some none →
      (update_config cfg new).1 = some "ConfigInvalid" ∧
      (update_config cfg new).2.scale = cfg.scale ∧
      (update_config cfg new).2.intercept = cfg.intercept ∧
      (update_config cfg new).2.step_up_threshold = cfg.step_up_threshold ∧
      (update_config cfg new).2.hard_deny_threshold = cfg.hard_deny_threshold) ∧
    ((∀ ws, new.weights = some ws → (convWeights ws).isSome = true) →
      (∀ r, new.scale = some r → r.isSome = true) →
      new.intercept = some none →
      (update_config cfg new).1 = some "ConfigInvalid" ∧
      (update_config cfg new).2.intercept = cfg.intercept ∧
      (update_config cfg new).2.step_up_threshold = cfg.step_up_threshold ∧
      (update_config cfg new).2.hard_deny_threshold = cfg.hard_deny_threshold) ∧
    ((∀ ws, new.weights = some ws → (convWeights ws).isSome = true) →
      (∀ r, new.scale = some r → r.isSome = true) →
      (∀ r, new.intercept = some r → r.isSome = true) →
      new.step_up_threshold = some none →
      (update_config cfg new).1 = some "ConfigInvalid" ∧
      (update_config cfg new).2.step_up_threshold = cfg.step_up_threshold ∧
      (update_config cfg new).2.hard_deny_threshold = cfg.hard_deny_threshold) ∧
    (∀ e, (update_config cfg new).1 = some e →
      (update_config cfg new).2.hard_deny_threshold = cfg.hard_deny_threshold) ∧
    (validRaw new → (update_config cfg new).1 = none) := by
  refine ⟨?_, ?_, ?_, ?_, ?_, ?_, ?_⟩
  · intro ws hw hconv
    have h1 : apply_weights cfg new = (some "ConfigInvalid", cfg) := by
      simp [apply_weights, hw, hconv]
    simp [update_config, chainStep, h1]
  · intro hw hsc
    have h1 : apply_weights cfg new = (none, cfg) := by simp [apply_weights, hw]
    have h2 : apply_scale cfg new = (some "ConfigInvalid", cfg) := by
      simp [apply_scale, hsc]
    simp [update_config, chainStep, h1, h2]
  · intro hwok hsc
    rcases h1 : apply_weights cfg new with ⟨e1, c1⟩
    have he1 : e1 = none := by
      have := apply_weights_ok cfg new hwok
      rw [h1] at this
      exact this
    subst he1
    have h2 : apply_scale c1 new = (some "ConfigInvalid", c1) :=
      apply_scale_fail c1 new hsc
    have hu : update_config cfg new = (some "ConfigInvalid", c1) := by
      simp [update_config, chainStep, h1, h2]
    have hw := apply_weights_preserves cfg new
    rw [h1] at hw
    rw [hu]
    exact ⟨rfl, hw.1, hw.2.1, hw.2.2.1, hw.2.2.2⟩
  · intro hwok hsok hic
    rcases h1 : apply_weights cfg new with ⟨e1, c1⟩
    have he1 : e1 = none := by
      have := apply_weights_ok cfg new hwok
      rw [h1] at this
      exact this
    subst he1
    rcases h2 : apply_scale c1 new with ⟨e2, c2⟩
    have he2 : e2 = none := by
      have := apply_scale_ok c1 new hsok
      rw [h2] at this
      exact this
    subst he2
    have h3 : apply_intercept c2 new = (some "ConfigInvalid", c2) :=
      apply_intercept_fail c2 new hic
    have hu : update_config cfg new = (some "ConfigInvalid", c2) := by
      simp [update_config, chainStep, h1, h2, h3]
    have hw := apply_weights_preserves cfg new
    rw [h1] at hw
    have hs := apply_scale_preserves c1 new
    rw [h2] at hs
    rw [hu]
    exact ⟨rfl, hs.1.trans hw.2.1, hs.2.1.trans hw.2.2.1,
      hs.2.2.trans hw.2.2.2⟩
  · intro hwok hsok hiok hst
    rcases h1 : apply_weights cfg new with ⟨e1, c1⟩
    have he1 : e1 = none := by
      have := apply_weights_ok cfg new hwok
      rw [h1] at this
      exact this
    subst he1
    rcases h2 : apply_scale c1 new with ⟨e2, c2⟩
    have he2 : e2 = none := by
      have := apply_scale_ok c1 new hsok
      rw [h2] at this
      exact this
    subst he2
    rcases h3 : apply_intercept c2 new with ⟨e3, c3⟩
    have he3 : e3 = none := by
      have := apply_intercept_ok c2 new hiok
      rw [h3] at this
      exact this
    subst he3
    have h4 : apply_stepup c3 new = (some "ConfigInvalid", c3) :=
      apply_stepup_fail c3 new hst
    have hu : update_config cfg new = (some "ConfigInvalid", c3) := by
      simp [update_config, chainStep, h1, h2, h3, h4]
    have hw := apply_weights_preserves cfg new
    rw [h1] at hw
    have hs := apply_scale_preserves c1 new
    rw [h2] at hs
    have hi := apply_intercept_preserves c2 new
    rw [h3] at hi
    rw [hu]
    exact ⟨rfl, (hi.1.trans hs.2.1).trans hw.2.2.1,
      (hi.2.trans hs.2.2).trans hw.2.2.2⟩
  · intro e he
    rcases h1 : apply_weights cfg new with ⟨e1, c1⟩
    have hp1 : c1.hard_deny_threshold = cfg.hard_deny_threshold := by
      have := (apply_weights_preserves cfg new).2.2.2
      rw [h1] at this
      exact this
    rcases e1 with _ | e1
    · rcases h2 : apply_scale c1 new with ⟨e2, c2⟩
      have hp2 : c2.hard_deny_threshold = c1.hard_deny_threshold := by
        have := apply_scale_preserves_hard c1 new
        rw [h2] at this
        exact this
      rcases e2 with _ | e2
      · rcases h3 : apply_intercept c2 new with ⟨e3, c3⟩
        have hp3 : c3.hard_deny_threshold = c2.hard_deny_threshold := by
          have := apply_intercept_preserves_hard c2 new
          rw [h3] at this
          exact this
        rcases e3 with _ | e3
        · rcases h4 : apply_stepup c3 new with ⟨e4, c4⟩
          have hp4 : c4.hard_deny_threshold = c3.hard_deny_threshold := by
            have := apply_stepup_preserves_hard c3 new
            rw [h4] at this
            exact this
          rcases e4 with _ | e4
          · rcases h5 : apply_harddeny c4 new with ⟨e5, c5⟩
            have hu : update_config cfg new = (e5, c5) := by
              simp [update_config, chainStep, h1, h2, h3, h4, h5]
            rcases e5 with _ | e5
            · rw [hu] at he
              simp at he
            · have hc5 : c5 = c4 := by
                have := apply_harddeny_fail c4 new e5
                rw [h5] at this
                exact this rfl
              rw [hu]
              rw [hc5, hp4, hp3, hp2, hp1]
          · have hu : update_config cfg new = (some e4, c4) := by
              simp [update_config, chainStep, h1, h2, h3, h4]
            rw [hu]
            rw [hp4, hp3, hp2, hp1]
        · have hu : update_config cfg new = (some e3, c3) := by
            simp [update_config, chainStep, h1, h2, h3]
          rw [hu]
          rw [hp3, hp2, hp1]
      · have hu : update_config cfg new = (some e2, c2) := by
          simp [update_config, chainStep, h1, h2]
        rw [hu]
        rw [hp2, hp1]
    · have hu : update_config cfg new = (some e1, c1) := by
        simp [update_config, chainStep, h1]
      rw [hu]
      exact hp1
  · rintro ⟨hvw, hvs, hvi, hvst, hvhd⟩
    rcases h1 : apply_weights cfg new with ⟨e1, c1⟩
    have he1 : e1 = none := by
      have := apply_weights_ok cfg new hvw
      rw [h1] at this
      exact this
    subst he1
    rcases h2 : apply_scale c1 new with ⟨e2, c2⟩
    have he2 : e2 = none := by
      have := apply_scale_ok c1 new hvs
      rw [h2] at this
      exact this
    subst he2
    rcases h3 : apply_intercept c2 new with ⟨e3, c3⟩
    have he3 : e3 = none := by
      have := apply_intercept_ok c2 new hvi
      rw [h3] at this
      exact this
    subst he3
    rcases h4 : apply_stepup c3 new with ⟨e4, c4⟩
    have he4 : e4 = none := by
      have := apply_stepup_ok c3 new hvst
      rw [h4] at this
      exact this
    subst he4
    rcases h5 : apply_harddeny c4 new with ⟨e5, c5⟩
    have he5 : e5 = none := by
      have := apply_harddeny_ok c4 new hvhd
      rw [h5] at this
      exact this
    subst he5
    simp [update_config, chainStep, h1, h2, h3, h4, h5]

/-- Witness for C8 (amended) at concrete inputs: an update whose weights
dict holds an unconvertible value fails and leaves the default configuration
fully unchanged; and an update with a valid weights dict but an
unconvertible scale fails with the scale and every later field unchanged. -/
theorem c8_config_amended_witness :
    (update_config CONFIG ⟨some [("bias", none)], some (some 2), none, none, none⟩
      = (some "ConfigInvalid", CONFIG)) ∧
    ((update_config CONFIG
        ⟨some [("bias", some 1)], some none, none, none, none⟩).1
      = some "ConfigInvalid" ∧
    (update_config CONFIG
        ⟨some [("bias", some 1)], some none, none, none, none⟩).2.scale
      = CONFIG.scale ∧
    (update_config CONFIG
        ⟨some [("bias", some 1)], some none, none, none, none⟩).2.intercept
      = CONFIG.intercept ∧
    (update_config CONFIG
        ⟨some [("bias", some 1)], some none, none, none, none⟩).2.step_up_threshold
      = CONFIG.step_up_threshold ∧
    (update_config CONFIG
        ⟨some [("bias", some 1)], some none, none, none, none⟩).2.hard_deny_threshold
      = CONFIG.hard_deny_threshold) :=
  ⟨(c8_config_amended CONFIG
      ⟨some [("bias", none)], some (some 2), none, none, none⟩).1
    [("bias", none)] rfl (by decide),
   (c8_config_amended CONFIG
      ⟨some [("bias", some 1)], some none, none, none, none⟩).2.2.1
    (by
      intro ws hws
      simp only [Option.some.injEq] at hws
      subst hws
      decide)
    rfl⟩

/- Claims C6 and C7: the anomaly facade. -/

/-- Shape of a fallback attempt: it always reports the partition-based
detector, never carries a fallback annotation of its own, and when its
trained-row count is zero (possible only below the minimum-rows threshold,
provided that threshold is positive) it scores 0 with the insufficiency
reason. -/
theorem try_iforest_spec (cfg : DetectorConfig) (o : MLOracle)
    (hist : List TxRow) :
    (try_iforest cfg o hist).used = "iforest" ∧
    (try_iforest cfg o hist).details.fallback = none ∧
    (0 < cfg.iforest.min_train_rows → (try_iforest cfg o hist).n_train = 0 →
      (try_iforest cfg o hist).score = 0 ∧
      (try_iforest cfg o hist).details.reason = some "model_not_trained") := by
  by_cases h : hist.length < cfg.iforest.min_train_rows
  · have ht : iforest_trained cfg.iforest hist = false := by
      simp [iforest_trained]
      omega
    refine ⟨rfl, ?_, ?_⟩
    · simp [try_iforest, ht, iforest_score_one]
    · intro _ _
      simp [try_iforest, ht, iforest_score_one]
  · have ht : iforest_trained cfg.iforest hist = true := by
      simp [iforest_trained]
      omega
    refine ⟨rfl, ?_, ?_⟩
    · simp [try_iforest, ht, iforest_score_one]
    · intro hpos hzero
      exfalso
      have hn : (try_iforest cfg o hist).n_train = hist.length := by
        simp [try_iforest, iforest_train]
        omega
      rw [hn] at hzero
      omega

/-- The three possible outcomes of a forced autoencoder attempt: torch
missing (error), too few rows (score 0 with reason, zero trained rows), or a
fitted model. -/
theorem try_autoenc_cases (cfg : DetectorConfig) (o : MLOracle)
    (hist : List TxRow) :
    (o.torchAvailable = false ∧
      try_autoenc cfg o hist = Except.error torchMissingMsg) ∨
    (o.torchAvailable = true ∧ hist.length < cfg.autoenc.min_train_rows ∧
      try_autoenc cfg o hist
        = Except.ok ⟨"autoenc", 0, { reason := some "model_not_trained" }, 0⟩) ∨
    (o.torchAvailable = true ∧ cfg.autoenc.min_train_rows ≤ hist.length ∧
      try_autoenc cfg o hist
        = Except.ok ⟨"autoenc", ae_map_score o.aeErr o.aeP95 o.aeP99,
            { recon_error := some o.aeErr, p95 := some o.aeP95,
              p99 := some o.aeP99, medianErr := some o.aeMedian },
            hist.length⟩) := by
  rcases htorch : o.torchAvailable with _ | _
  · left
    exact ⟨rfl, by simp [try_autoenc, autoenc_train, htorch]⟩
  · by_cases hlen : hist.length < cfg.autoenc.min_train_rows
    · right
      left
      refine ⟨rfl, hlen, ?_⟩
      have hd : decide (cfg.autoenc.min_train_rows ≤ hist.length) = false := by
        simp
        omega
      simp [try_autoenc, autoenc_train, autoenc_score_one, htorch, hlen, hd]
    · right
      right
      refine ⟨rfl, by omega, ?_⟩
      have hd : decide (cfg.autoenc.min_train_rows ≤ hist.length) = true := by
        simp
        omega
      simp [try_autoenc, autoenc_train, autoenc_score_one, htorch, hlen, hd]

/-- Claim C6: for every history (including the empty one), every new row and
every forced method, the facade returns a result rather than raising; and
whenever training yielded zero rows the returned score is 0 and the details
carry the insufficiency reason. -/
theorem c6_total_availability (cfg : DetectorConfig) (o : MLOracle)
    (hist : List TxRow) (newest : TxRow) (force : Option String)
    (hif : 0 < cfg.iforest.min_train_rows)
    (hae : 0 < cfg.autoenc.min_train_rows) :
    ∃ r, train_and_score cfg o hist newest force = Except.ok r ∧
      (r.n_train = 0 → r.score = 0 ∧
        r.details.reason = some "model_not_trained") := by
  have hifspec := try_iforest_spec cfg o hist
  by_cases hm1 : methodOf force cfg.method = "iforest"
  · refine ⟨try_iforest cfg o hist, ?_, hifspec.2.2 hif⟩
    simp [train_and_score, hm1]
  · by_cases hm2 : methodOf force cfg.method = "autoenc"
    · rcases try_autoenc_cases cfg o hist with ⟨ht, hres⟩ | ⟨ht, hlen, hres⟩ |
        ⟨ht, hlen, hres⟩
      · refine ⟨{ try_iforest cfg o hist with
            details := mergeFallback torchMissingMsg (try_iforest cfg o hist).details },
          ?_, ?_⟩
        · simp [train_and_score, hm1, hm2, hres]
        · intro hz
          have hz' : (try_iforest cfg o hist).n_train = 0 := hz
          have := hifspec.2.2 hif hz'
          refine ⟨this.1, ?_⟩
          simp [mergeFallback, this.2]
      · refine ⟨try_iforest cfg o hist, ?_, hifspec.2.2 hif⟩
        simp [train_and_score, hm1, hm2, hres]
      · refine ⟨⟨"autoenc", ae_map_score o.aeErr o.aeP95 o.aeP99,
          { recon_error := some o.aeErr, p95 := some o.aeP95,
            p99 := some o.aeP99, medianErr := some o.aeMedian },
          hist.length⟩, ?_, ?_⟩
        · have hne : hist.length ≠ 0 := by omega
          simp [train_and_score, hm1, hm2, hres, hne]
        · intro hz
          exfalso
          have : hist.length = 0 := hz
          omega
    · by_cases hauto : o.torchAvailable = true ∧
          cfg.autoenc.min_train_rows ≤ hist.length
      · rcases try_autoenc_cases cfg o hist with ⟨ht, hres⟩ | ⟨ht, hlen, hres⟩ |
          ⟨ht, hlen, hres⟩
        · rw [hauto.1] at ht
          cases ht
        · omega
        · refine ⟨⟨"autoenc", ae_map_score o.aeErr o.aeP95 o.aeP99,
            { recon_error := some o.aeErr, p95 := some o.aeP95,
              p99 := some o.aeP99, medianErr := some o.aeMedian },
            hist.length⟩, ?_, ?_⟩
          · simp [train_and_score, hm1, hm2, hauto, hres]
          · intro hz
            exfalso
            have : hist.length = 0 := hz
            omega
      · refine ⟨try_iforest cfg o hist, ?_, hifspec.2.2 hif⟩
        simp [train_and_score, hm1, hm2, hauto]

/-- Witness for C6 at a concrete input: the default facade configuration on
an empty history with a forced default method returns a result, and its
zero-trained-rows branch reports score 0 with the insufficiency reason. -/
theorem c6_total_availability_witness :
    ∃ r, train_and_score {} ⟨0, 0, 0, 0, 0, true⟩ [] ⟨0, "", ""⟩ none
        = Except.ok r ∧
      (r.n_train = 0 → r.score = 0 ∧
        r.details.reason = some "model_not_trained") :=
  c6_total_availability {} ⟨0, 0, 0, 0, 0, true⟩ [] ⟨0, "", ""⟩ none
    (by decide) (by decide)

/-- Counterexample for C7: forcing the autoencoder with torch available on a
20-row history (enough for the partition detector, too little for the
autoencoder) silently falls back — the result comes from the
partition-based detector with its 20 trained rows — but the returned details
carry no fallback annotation. -/
theorem c7_fallback_cex :
    (train_and_score ({} : DetectorConfig) ⟨0, 0, 0, 0, 0, true⟩
        (List.replicate 20 ⟨1, "A", "m"⟩) ⟨500, "B", "x"⟩
        (some "autoenc")).map
        (fun r => (r.used, r.n_train, r.details.fallback))
      = Except.ok ("iforest", 20, (none : Option String)) := rfl

/-- Claim C7 (amended): when the caller forces the autoencoder backend, a
backend error (torch unavailable) falls back to the partition-based detector
and the fallback is annotated in the details; but when the forced backend
merely trains on zero rows, the facade falls back silently and the details
carry no fallback annotation. -/
theorem c7_forced_fallback (cfg : DetectorConfig) (o : MLOracle)
    (hist : List TxRow) (newest : TxRow) :
    (o.torchAvailable = false →
      ∃ r, train_and_score cfg o hist newest (some "autoenc") = Except.ok r ∧
        r.used = "iforest" ∧ r.details.fallback = some "iforest") ∧
    (o.torchAvailable = true → hist.length < cfg.autoenc.min_train_rows →
      ∃ r, train_and_score cfg o hist newest (some "autoenc") = Except.ok r ∧
        r.used = "iforest" ∧ r.details.fallback = none) := by
  have hifspec := try_iforest_spec cfg o hist
  have hm2 : methodOf (some "autoenc") cfg.method = "autoenc" := rfl
  have hm1 : methodOf (some "autoenc") cfg.method ≠ "iforest" := by
    rw [hm2]
    decide
  constructor
  · intro ht
    rcases try_autoenc_cases cfg o hist with ⟨_, hres⟩ | ⟨ht2, _, _⟩ | ⟨ht2, _, _⟩
    · refine ⟨{ try_iforest cfg o hist with
          details := mergeFallback torchMissingMsg (try_iforest cfg o hist).details },
        ?_, hifspec.1, ?_⟩
      · simp [train_and_score, hm1, hm2, hres]
      · simp [mergeFallback]
    · rw [ht] at ht2
      cases ht2
    · rw [ht] at ht2
      cases ht2
  · intro ht hlen
    rcases try_autoenc_cases cfg o hist with ⟨ht2, _⟩ | ⟨_, _, hres⟩ | ⟨_, hlen2, _⟩
    · rw [ht] at ht2
      cases ht2
    · refine ⟨try_iforest cfg o hist, ?_, hifspec.1, hifspec.2.1⟩
      simp [train_and_score, hm1, hm2, hres]
    · omega

/-- Witness for C7 (amended) at a concrete input: forcing the autoencoder
with torch unavailable yields an annotated fallback to the partition-based
detector. -/
theorem c7_forced_fallback_witness :
    ∃ r, train_and_score ({} : DetectorConfig) ⟨0, 0, 0, 0, 0, false⟩ []
        ⟨0, "", ""⟩ (some "autoenc") = Except.ok r ∧
      r.used = "iforest" ∧ r.details.fallback = some "iforest" :=
  (c7_forced_fallback {} ⟨0, 0, 0, 0, 0, false⟩ [] ⟨0, "", ""⟩).1 rfl

/- Claim C5: gating of the city and hour features. -/

/-- Unfolding of the new_city feature. -/
theorem lf_new_city (rr : List LoginEventRow) (lc lh : List (String × ℕ))
    (dt : List (String × Bool)) (city : String) (priv : Bool)
    (dh : Option String) (kd ic : Bool) (cf : ℤ) (hr : ℕ) (sp : Option ℚ) :
    (login_features rr lc lh dt city priv dh kd ic cf hr sp).1.new_city
      = (if !(priv || (city == "Unknown")) && decide (1 ≤ prior_successes rr)
          then (if (lc.lookup city).getD 0 = 0 then (1 : ℚ) else 0) else 0) := rfl

/-- Unfolding of the rare_city feature. -/
theorem lf_rare_city (rr : List LoginEventRow) (lc lh : List (String × ℕ))
    (dt : List (String × Bool)) (city : String) (priv : Bool)
    (dh : Option String) (kd ic : Bool) (cf : ℤ) (hr : ℕ) (sp : Option ℚ) :
    (login_features rr lc lh dt city priv dh kd ic cf hr sp).1.rare_city
      = (if !(priv || (city == "Unknown")) && decide (1 ≤ prior_successes rr)
          then (if (lc.lookup city).getD 0 ≤ 2 ∧ 0 < (lc.lookup city).getD 0
                then (1 : ℚ) else 0)
          else 0) := rfl

/-- Unfolding of the odd_hour feature. -/
theorem lf_odd_hour (rr : List LoginEventRow) (lc lh : List (String × ℕ))
    (dt : List (String × Bool)) (city : String) (priv : Bool)
    (dh : Option String) (kd ic : Bool) (cf : ℤ) (hr : ℕ) (sp : Option ℚ) :
    (login_features rr lc lh dt city priv dh kd ic cf hr sp).1.odd_hour
      = (if decide (3 ≤ prior_successes rr)
          then (if (lh.lookup (toString hr)).getD 0 = 0 then (1 : ℚ) else 0)
          else 0) := rfl

/-- Unfolding of the uncommon_hour feature. -/
theorem lf_uncommon_hour (rr : List LoginEventRow) (lc lh : List (String × ℕ))
    (dt : List (String × Bool)) (city : String) (priv : Bool)
    (dh : Option String) (kd ic : Bool) (cf : ℤ) (hr : ℕ) (sp : Option ℚ) :
    (login_features rr lc lh dt city priv dh kd ic cf hr sp).1.uncommon_hour
      = (if decide (3 ≤ prior_successes rr)
          then (if (lh.lookup (toString hr)).getD 0 ≤ 2 ∧
                    0 < (lh.lookup (toString hr)).getD 0 then (1 : ℚ) else 0)
          else 0) := rfl

/-- Claim C5: new_city and rare_city are computed only for a
non-private/resolvable IP with at least one prior successful attempt
(excluding the candidate); odd_hour and uncommon_hour only with at least 3
prior successful attempts; in every ineligible or geo-degraded case all four
are 0, never 1. -/
theorem c5_feature_gating (rr : List LoginEventRow) (lc lh : List (String × ℕ))
    (dt : List (String × Bool)) (city : String) (priv : Bool)
    (dh : Option String) (kd ic : Bool) (cf : ℤ) (hr : ℕ) (sp : Option ℚ) :
    ((login_features rr lc lh dt city priv dh kd ic cf hr sp).1.new_city = 1 ↔
      (priv = false ∧ city ≠ "Unknown" ∧ 1 ≤ prior_successes rr ∧
        (lc.lookup city).getD 0 = 0)) ∧
    ((login_features rr lc lh dt city priv dh kd ic cf hr sp).1.rare_city = 1 ↔
      (priv = false ∧ city ≠ "Unknown" ∧ 1 ≤ prior_successes rr ∧
        0 < (lc.lookup city).getD 0 ∧ (lc.lookup city).getD 0 ≤ 2)) ∧
    ((login_features rr lc lh dt city priv dh kd ic cf hr sp).1.odd_hour = 1 ↔
      (3 ≤ prior_successes rr ∧ (lh.lookup (toString hr)).getD 0 = 0)) ∧
    ((login_features rr lc lh dt city priv dh kd ic cf hr sp).1.uncommon_hour = 1 ↔
      (3 ≤ prior_successes rr ∧ 0 < (lh.lookup (toString hr)).getD 0 ∧
        (lh.lookup (toString hr)).getD 0 ≤ 2)) ∧
    ((priv = true ∨ city = "Unknown" ∨ prior_successes rr = 0) →
      (login_features rr lc lh dt city priv dh kd ic cf hr sp).1.new_city = 0 ∧
      (login_features rr lc lh dt city priv dh kd ic cf hr sp).1.rare_city = 0) ∧
    (prior_successes rr < 3 →
      (login_features rr lc lh dt city priv dh kd ic cf hr sp).1.odd_hour = 0 ∧
      (login_features rr lc lh dt city priv dh kd ic cf hr sp).1.uncommon_hour = 0) := by
  refine ⟨?_, ?_, ?_, ?_, ?_, ?_⟩
  · rw [lf_new_city]
    cases priv <;> by_cases hcity : city = "Unknown" <;>
      by_cases hp : 1 ≤ prior_successes rr <;>
      by_cases hc0 : (lc.lookup city).getD 0 = 0 <;>
      simp [hcity, hp, hc0, beq_iff_eq]
  · rw [lf_rare_city]
    cases priv <;> by_cases hcity : city = "Unknown" <;>
      by_cases hp : 1 ≤ prior_successes rr <;>
      by_cases hc1 : 0 < (lc.lookup city).getD 0 <;>
      by_cases hc2 : (lc.lookup city).getD 0 ≤ 2 <;>
      simp [hcity, hp, hc1, hc2, beq_iff_eq]
  · rw [lf_odd_hour]
    by_cases hp : 3 ≤ prior_successes rr <;>
      by_cases hh0 : (lh.lookup (toString hr)).getD 0 = 0 <;>
      simp [hp, hh0]
  · rw [lf_uncommon_hour]
    by_cases hp : 3 ≤ prior_successes rr <;>
      by_cases hh1 : 0 < (lh.lookup (toString hr)).getD 0 <;>
      by_cases hh2 : (lh.lookup (toString hr)).getD 0 ≤ 2 <;>
      simp [hp, hh1, hh2]
  · intro hcase
    rw [lf_new_city, lf_rare_city]
    rcases hcase with hpriv | hcity | hzero
    · subst hpriv
      simp
    · subst hcity
      simp
    · have hp : ¬ 1 ≤ prior_successes rr := by omega
      simp [hp]
  · intro hlt
    rw [lf_odd_hour, lf_uncommon_hour]
    have hp : ¬ 3 ≤ prior_successes rr := by omega
    simp [hp]

/-- Witness for C5 at a concrete input: a private IP makes both city features
0 even with successful history. -/
theorem c5_feature_gating_witness :
    (login_features [⟨true⟩, ⟨true⟩, ⟨false⟩] [] [] [] "Paris" true none false
        false 0 3 none).1.new_city = 0 ∧
    (login_features [⟨true⟩, ⟨true⟩, ⟨false⟩] [] [] [] "Paris" true none false
        false 0 3 none).1.rare_city = 0 :=
  (c5_feature_gating [⟨true⟩, ⟨true⟩, ⟨false⟩] [] [] [] "Paris" true none false
      false 0 3 none).2.2.2.2.1 (Or.inl rfl)

/- Claim C2: the post-score calibrator. -/

/-- Unfolding of the calibrator on a known first-seen delta. -/
theorem apply_post_rules_some (total : ℤ) (ps : ℕ) (d : ℤ) :
    apply_post_rules total ps (some d)
      = max 0 (min (if 0 < max d 0
          then pyRound (((if ps = 0 then min total 55 else total : ℤ) : ℝ)
            * decay_factor (max d 0))
          else (if ps = 0 then min total 55 else total)) 100) := rfl

/-- Unfolding of the calibrator with no known first-seen date. -/
theorem apply_post_rules_none (total : ℤ) (ps : ℕ) :
    apply_post_rules total ps none
      = max 0 (min (if ps = 0 then min total 55 else total) 100) := rfl

/-- Claim C2: the calibrator is exactly the cold-start cap followed by the
device-age decay, re-clamped to [0,100]; and with zero prior successes the
calibrated score is at most 55. -/
theorem c2_post_calibration (total : ℤ) (ps : ℕ) (dd : Option ℤ) :
    (apply_post_rules total ps dd
      = max 0 (min (device_age_decay (cold_start_cap total ps) dd) 100)) ∧
    (ps = 0 → apply_post_rules total ps dd ≤ 55) := by
  constructor
  · rcases dd with _ | d <;> rfl
  · intro hps
    subst hps
    rcases dd with _ | d
    · rw [apply_post_rules_none, if_pos rfl]
      omega
    · rw [apply_post_rules_some, if_pos rfl]
      by_cases hd : 0 < max d 0
      · rw [if_pos hd]
        have hle : ((min total 55 : ℤ) : ℝ) * decay_factor (max d 0)
            ≤ ((55 : ℤ) : ℝ) := by
          have hf0 : 0 < decay_factor (max d 0) := decay_factor_pos _
          have hf1 : decay_factor (max d 0) ≤ 1 :=
            decay_factor_le_one (le_max_right d 0)
          have ht55 : ((min total 55 : ℤ) : ℝ) ≤ ((55 : ℤ) : ℝ) := by
            exact_mod_cast min_le_right total 55
          rcases le_or_lt 0 ((min total 55 : ℤ) : ℝ) with h0 | h0
          · calc ((min total 55 : ℤ) : ℝ) * decay_factor (max d 0)
                ≤ ((min total 55 : ℤ) : ℝ) * 1 :=
                  mul_le_mul_of_nonneg_left hf1 h0
              _ = ((min total 55 : ℤ) : ℝ) := mul_one _
              _ ≤ ((55 : ℤ) : ℝ) := ht55
          · have hneg : ((min total 55 : ℤ) : ℝ) * decay_factor (max d 0) < 0 :=
              mul_neg_of_neg_of_pos h0 hf0
            have h55 : (0 : ℝ) ≤ ((55 : ℤ) : ℝ) := by norm_num
            linarith
        have := pyRound_le_of_le hle
        omega
      · rw [if_neg hd]
        omega

/-- Witness for C2 at a concrete input: a linear score of 90 with zero prior
successes calibrates to at most 55. -/
theorem c2_post_calibration_witness : apply_post_rules 90 0 none ≤ 55 :=
  (c2_post_calibration 90 0 none).2 rfl

/- Claim C9: device-age decay behaviour of the calibrator. -/

/-- Counterexample for C9: the calibrated integer score is not strictly
decreasing in daysSinceFirstSeen — a score of 1 on an account with history
calibrates to 1 both after 1 day and after 2 days; moreover at day 0 the
score is not always left unchanged, since the cold-start cap still fires
(90 with zero prior successes becomes 55). -/
theorem c9_decay_cex :
    apply_post_rules 1 1 (some 1) = 1 ∧ apply_post_rules 1 1 (some 2) = 1 ∧
    apply_post_rules 90 0 (some 0) = 55 := by
  have hf1 : pyRound (decay_factor 1) = 1 :=
    pyRound_eq_one (half_lt_decay_factor (by norm_num) (by norm_num))
      (decay_factor_lt_one (by norm_num))
  have hf2 : pyRound (decay_factor 2) = 1 :=
    pyRound_eq_one (half_lt_decay_factor (by norm_num) (by norm_num))
      (decay_factor_lt_one (by norm_num))
  constructor
  · rw [apply_post_rules_some]
    rw [if_neg (by norm_num : ¬(1 : ℕ) = 0)]
    rw [show max (1 : ℤ) 0 = 1 from by omega]
    rw [if_pos (by norm_num : (0 : ℤ) < 1)]
    rw [show (((1 : ℤ) : ℝ)) = 1 from by norm_num, one_mul, hf1]
    omega
  constructor
  · rw [apply_post_rules_some]
    rw [if_neg (by norm_num : ¬(1 : ℕ) = 0)]
    rw [show max (2 : ℤ) 0 = 2 from by omega]
    rw [if_pos (by norm_num : (0 : ℤ) < 2)]
    rw [show (((1 : ℤ) : ℝ)) = 1 from by norm_num, one_mul, hf2]
    omega
  · rw [apply_post_rules_some]
    rw [if_pos rfl]
    rw [show max (0 : ℤ) 0 = 0 from by omega]
    rw [if_neg (by norm_num : ¬(0 : ℤ) < 0)]
    omega

/-- Claim C9 (amended): with a device seen today (0 days) calibration leaves
an in-range score unchanged (given at least one prior success, so the
cold-start cap does not fire); the decay factor is strictly decreasing in
the day count; and the calibrated integer score is non-increasing — but not
strictly decreasing — in the day count. -/
theorem c9_decay_amended (total : ℤ) (ps : ℕ) (d1 d2 : ℤ) :
    (ps ≠ 0 → 0 ≤ total → total ≤ 100 →
      apply_post_rules total ps (some 0) = total) ∧
    (0 < d1 → d1 < d2 → decay_factor d2 < decay_factor d1) ∧
    (0 ≤ total → 0 < d1 → d1 ≤ d2 →
      apply_post_rules total ps (some d2) ≤ apply_post_rules total ps (some d1)) := by
  refine ⟨?_, ?_, ?_⟩
  · intro hps h0 h100
    rw [apply_post_rules_some]
    rw [if_neg hps]
    rw [show max (0 : ℤ) 0 = 0 from by omega]
    rw [if_neg (by norm_num : ¬(0 : ℤ) < 0)]
    omega
  · intro _ hlt
    exact decay_factor_strict_anti hlt
  · intro h0 hd1 hd12
    rw [apply_post_rules_some, apply_post_rules_some]
    have ht1 : (0 : ℤ) ≤ (if ps = 0 then min total 55 else total) := by
      split_ifs <;> omega
    rw [show max d1 0 = d1 from by omega, show max d2 0 = d2 from by omega]
    rw [if_pos hd1, if_pos (by omega : (0 : ℤ) < d2)]
    have hmul : ((if ps = 0 then min total 55 else total : ℤ) : ℝ) * decay_factor d2
        ≤ ((if ps = 0 then min total 55 else total : ℤ) : ℝ) * decay_factor d1 := by
      have hc : ((0 : ℤ) : ℝ) ≤ ((if ps = 0 then min total 55 else total : ℤ) : ℝ) := by
        exact_mod_cast ht1
      exact mul_le_mul_of_nonneg_left (decay_factor_anti hd12) (by exact_mod_cast hc)
    have := pyRound_mono hmul
    omega

/-- Witness for C9 (amended) at a concrete input: a device seen today leaves
a score of 50 unchanged, and 2 days of decay give at most what 1 day gives. -/
theorem c9_decay_amended_witness :
    apply_post_rules 50 1 (some 0) = 50 ∧
    apply_post_rules 50 1 (some 2) ≤ apply_post_rules 50 1 (some 1) :=
  ⟨(c9_decay_amended 50 1 1 2).1 (by norm_num) (by norm_num) (by norm_num),
   (c9_decay_amended 50 1 1 2).2.2 (by norm_num) (by norm_num) (by norm_num)⟩

/- Claim C4: the linear scorer. -/

/-- The two numerically-stable sigmoid branches agree with the closed form. -/
theorem sigmoid_eq (x : ℝ) : sigmoid x = 1 / (1 + Real.exp (-x)) := by
  unfold sigmoid
  split_ifs with h
  · rfl
  · rw [Real.exp_neg]
    have h1 : Real.exp x ≠ 0 := Real.exp_ne_zero x
    have h2 : (0 : ℝ) < 1 + Real.exp x := by positivity
    field_simp
    ring

/-- Folding the weighted accumulator equals the bias plus the weighted sum. -/
theorem foldl_weighted_sum (w : String → ℚ) (l : List (String × ℚ)) (init : ℚ) :
    l.foldl (fun acc kv => acc + w kv.1 * kv.2) init
      = init + (l.map (fun kv => w kv.1 * kv.2)).sum := by
  induction l generalizing init with
  | nil => simp
  | cons x xs ih =>
    rw [List.foldl_cons, ih]
    simp
    ring

/-- Unfolding of the linear scorer. -/
theorem linear_score_def (feats : List (String × ℚ)) (cfg : RiskConfig) :
    linear_score feats cfg
      = max 0 (min (pyRound (sigmoid
          ((cfg.scale * (feats.foldl
              (fun acc kv => acc + dictGetQ cfg.weights kv.1 * kv.2)
              (dictGetQ cfg.weights "bias")) + cfg.intercept : ℚ) : ℝ) * 100))
          100) := rfl

/-- Claim C4: the linear scorer returns
round(100 * sigmoid(intercept + scale * (bias + weighted sum))) clamped to
[0,100], and a feature absent from the weight dict contributes nothing. -/
theorem c4_linear_score (feats : List (String × ℚ)) (cfg : RiskConfig) :
    (linear_score feats cfg
      = max 0 (min (pyRound (100 * (1 / (1 + Real.exp
          (-((cfg.intercept + cfg.scale * (dictGetQ cfg.weights "bias"
              + (feats.map (fun kv => dictGetQ cfg.weights kv.1 * kv.2)).sum)
            : ℚ) : ℝ)))))) 100)) ∧
    (∀ k v, cfg.weights.lookup k = none →
      linear_score (feats ++ [(k, v)]) cfg = linear_score feats cfg) := by
  constructor
  · rw [linear_score_def, foldl_weighted_sum]
    have hcast : ((cfg.scale * (dictGetQ cfg.weights "bias"
        + (feats.map (fun kv => dictGetQ cfg.weights kv.1 * kv.2)).sum)
        + cfg.intercept : ℚ) : ℝ)
        = ((cfg.intercept + cfg.scale * (dictGetQ cfg.weights "bias"
        + (feats.map (fun kv => dictGetQ cfg.weights kv.1 * kv.2)).sum) : ℚ) : ℝ) := by
      push_cast
      ring
    rw [hcast, sigmoid_eq]
    rw [mul_comm]
  · intro k v hk
    rw [linear_score_def, linear_score_def, foldl_weighted_sum,
      foldl_weighted_sum]
    simp [dictGetQ, hk]

/-- Witness for C4 at a concrete input: appending a feature named foo, which
is absent from the default weight dict, leaves the score unchanged. -/
theorem c4_linear_score_witness :
    linear_score ([("new_device", 1)] ++ [("foo", 5)]) CONFIG
      = linear_score [("new_device", 1)] CONFIG :=
  (c4_linear_score [("new_device", 1)] CONFIG).2 "foo" 5 rfl

end PFM
